import Mathlib

set_option maxRecDepth 100000

/-!
Verification development for the nutrition-bot repository.

Shallow embedding of the core algorithmic parts of the code base:

* `src/services/api_services.py` — Atwater calorie computation and
  reconciliation (`_atwater_kcal`, `_validate_and_fix_calories`), barcode
  payload validation (`_try_pyzbar_decode`, `extract_barcode_from_image`),
  provider response acceptance (`_search_off_barcode`, `_search_ean_search`,
  `search_open_food_facts_by_name`), the barcode provider fallback chain
  (`search_open_food_facts_by_barcode`) and the enrichment orchestrator
  (`process_gemini_and_enrich`, `get_nutrition_by_food_name`).
* `src/database/db.py` — logical-day window functions
  (`get_logical_day_start`, `get_logical_day_end`) with the configured
  start hour `LOGICAL_DAY_START_HOUR = 3` from `src/config.py`.

Modelling conventions: Python floats are modelled as exact rationals (ℚ);
`round(x, 1)` is modelled with the integer rounding function on ℚ (the
models agree away from exact half-way tenths); naive `datetime` values are
modelled as integer microseconds since an arbitrary epoch whose day
boundaries sit at multiples of `microsPerDay` (Python `datetime.replace`
on hour/minute/second/microsecond keeps the calendar date, i.e. the
enclosing day interval); network calls are modelled as oracle functions
passed in as parameters, and a provider's parsed response as an explicit
structure holding the fields the code extracts.
-/

/-! ## Atwater validator (`api_services.py`, lines 107-134) -/

/-- Model of Python `round(x, 1)`: round to one decimal place, computed as
⌊10·x + 1/2⌋ / 10 (Python's float rounding is ties-to-even, but no value in
this development sits on an exact half-way tenth). -/
def round1 (x : ℚ) : ℚ := (((x * 10 + 1/2).floor : ℤ) : ℚ) / 10

/-- Embedding of `_atwater_kcal(protein_g, carbs_g, fat_g)`:
`round((protein_g * 4) + (carbs_g * 4) + (fat_g * 9), 1)`. -/
def atwater_kcal (protein_g carbs_g fat_g : ℚ) : ℚ :=
  round1 (protein_g * 4 + carbs_g * 4 + fat_g * 9)

/-- Embedding of `_validate_and_fix_calories(calories_reported, protein_g,
carbs_g, fat_g)`: if the Atwater value is zero return the reported value;
otherwise if the relative deviation exceeds 20% return the Atwater value,
else return the reported value. -/
def validate_and_fix_calories (calories_reported protein_g carbs_g fat_g : ℚ) : ℚ :=
  if atwater_kcal protein_g carbs_g fat_g = 0 then calories_reported
  else if |calories_reported - atwater_kcal protein_g carbs_g fat_g| /
      atwater_kcal protein_g carbs_g fat_g > 1/5 then
    atwater_kcal protein_g carbs_g fat_g
  else calories_reported

/-! ## Nutrition record (`api_services.py`, `NutritionalData` dataclass) -/

/-- Embedding of the `NutritionalData` dataclass: per-100g nutrition record
with a provenance tag. -/
structure NutritionalData where
  food_name : String
  calories_per_100g : ℚ
  protein_per_100g : ℚ
  carbs_per_100g : ℚ
  fat_per_100g : ℚ
  source : String
deriving DecidableEq, Repr

/-! ## Logical-day clock (`db.py`, lines 76-115; `config.py`, line 104) -/

/-- Microseconds in one day. -/
def microsPerDay : ℤ := 86400000000

/-- Microseconds in one second. -/
def microsPerSecond : ℤ := 1000000

/-- Embedding of `LOGICAL_DAY_START_HOUR = 3` from `src/config.py`. -/
def LOGICAL_DAY_START_HOUR : ℤ := 3

/-- The configured start hour as microseconds after the calendar-day
boundary (03:00:00.000000). -/
def logicalDayStartMicros : ℤ := LOGICAL_DAY_START_HOUR * 3600 * 1000000

/-- Embedding of `get_logical_day_start(date)`: `date.replace(hour=3,
minute=0, second=0, microsecond=0)` is the instant floored to its calendar
day plus the start-hour offset; if `date` is before that same-day start,
one full day is subtracted. Instants are microseconds since an epoch whose
day boundaries are at multiples of `microsPerDay`. -/
def get_logical_day_start (t : ℤ) : ℤ :=
  if t < t - t % microsPerDay + logicalDayStartMicros then
    t - t % microsPerDay + logicalDayStartMicros - microsPerDay
  else t - t % microsPerDay + logicalDayStartMicros

/-- Embedding of `get_logical_day_end(date)`:
`get_logical_day_start(date) + timedelta(hours=24) - timedelta(seconds=1)`. -/
def get_logical_day_end (t : ℤ) : ℤ :=
  get_logical_day_start t + microsPerDay - microsPerSecond

/-- Embedding of the timestamp filter used by `Database.get_today_totals`:
`timestamp >= day_start AND timestamp < day_end`. -/
def in_logical_day_window (timestamp now : ℤ) : Bool :=
  decide (get_logical_day_start now ≤ timestamp) &&
  decide (timestamp < get_logical_day_end now)

/-! ## Barcode payload validation (`api_services.py`, lines 141-291) -/

/-- The longest prefix of consecutive digit characters (the digits the
regex `\d{8,14}` can consume greedily from a given start position). -/
def digitRun : List Char → List Char
  | [] => []
  | c :: rest => if c.isDigit then c :: digitRun rest else []

/-- Model of `re.search(r'(\d{8,14})', s)`: scan start positions left to
right; at the first position where at least 8 consecutive digits begin,
match greedily up to 14 of them. -/
def regex_digit_search : List Char → Option (List Char)
  | [] => none
  | c :: rest =>
    if 8 ≤ (digitRun (c :: rest)).length then some ((digitRun (c :: rest)).take 14)
    else regex_digit_search rest

/-- Embedding of the per-payload validation inside `_try_pyzbar_decode`:
an all-digit payload of length 8-14 is returned as-is; otherwise, for a
non-empty payload, the digit-run regex extraction is applied. -/
def validate_barcode_payload (b : String) : Option String :=
  if b.toList.all Char.isDigit ∧ 8 ≤ b.length ∧ b.length ≤ 14 then some b
  else if b.length > 0 then (regex_digit_search b.toList).map String.mk
  else none

/-- Embedding of the loop of `_try_pyzbar_decode` over the decoded
objects of one decode attempt: the first payload passing validation wins. -/
def try_pyzbar_decode : List String → Option String
  | [] => none
  | b :: rest =>
    match validate_barcode_payload b with
    | some code => some code
    | none => try_pyzbar_decode rest

/-- Embedding of the search loop of `extract_barcode_from_image`: the
rotation/transform combinations each produce one decode attempt (a list of
decoded payloads, modelled as an oracle since the image processing itself
is external); the first attempt yielding a validated code wins. -/
def extract_barcode_from_image : List (List String) → Option String
  | [] => none
  | attempt :: rest =>
    match try_pyzbar_decode attempt with
    | some code => some code
    | none => extract_barcode_from_image rest

/-! ## Provider response acceptance (`api_services.py`, lines 519-583,
669-701, 1072-1132) -/

/-- The nutrient fields `_search_off_barcode` extracts from an Open Food
Facts product payload (after the key-synonym fallbacks). -/
structure OffBarcodeProduct where
  product_name : String
  calories : ℚ
  protein : ℚ
  carbs : ℚ
  fat : ℚ
deriving DecidableEq, Repr

/-- Embedding of the acceptance logic of `_search_off_barcode`: `none`
when the response has no product; a parse where the calories are zero and
no macro is non-zero (`if calories == 0 and not (protein or carbs or
fat)`) is rejected; otherwise the record is returned. -/
def search_off_barcode_parse : Option OffBarcodeProduct → Option NutritionalData
  | none => none
  | some p =>
    if p.calories = 0 ∧ ¬(p.protein ≠ 0 ∨ p.carbs ≠ 0 ∨ p.fat ≠ 0) then none
    else some
      { food_name := p.product_name
        calories_per_100g := p.calories
        protein_per_100g := p.protein
        carbs_per_100g := p.carbs
        fat_per_100g := p.fat
        source := "open_food_facts" }

/-- The fields `_search_ean_search` reads from an EAN Search response:
whether `data.get("barcode")` is truthy, and the product name (`none`
models a falsy name). -/
structure EanSearchResponse where
  barcode_found : Bool
  name : Option String
deriving DecidableEq, Repr

/-- Embedding of the acceptance logic of `_search_ean_search`: when the
response carries a barcode and a truthy product name, a record is returned
whose four nutrient fields are all literal zeros ("EAN Search no siempre
tiene datos nutricionales"). -/
def search_ean_search_parse (resp : EanSearchResponse) : Option NutritionalData :=
  if resp.barcode_found then
    match resp.name with
    | some product_name => some
        { food_name := product_name
          calories_per_100g := 0
          protein_per_100g := 0
          carbs_per_100g := 0
          fat_per_100g := 0
          source := "ean_search" }
    | none => none
  else none

/-- The fields `search_open_food_facts_by_name` extracts from the first
product of a name-search response (a missing `product_name` falls back to
the query string; missing nutrient keys parse as 0). -/
structure OffNameProduct where
  product_name : Option String
  calories : ℚ
  protein : ℚ
  carbs : ℚ
  fat : ℚ
deriving DecidableEq, Repr

/-- Embedding of the acceptance logic of `search_open_food_facts_by_name`:
`none` only when the product list is empty; the first product is accepted
unconditionally, whatever its nutrient values. -/
def search_off_by_name_parse (food_name : String) :
    Option OffNameProduct → Option NutritionalData
  | none => none
  | some p => some
      { food_name := p.product_name.getD food_name
        calories_per_100g := p.calories
        protein_per_100g := p.protein
        carbs_per_100g := p.carbs
        fat_per_100g := p.fat
        source := "off" }

/-! ## Barcode provider fallback chain (`api_services.py`, lines 454-516) -/

/-- The providers of `search_open_food_facts_by_barcode`, in the fixed
priority order of the code, plus the final label-reading fallback. -/
inductive BarcodeProvider where
  | off
  | ean
  | barcode_lookup
  | upc
  | barcode_database
  | groq_label
deriving DecidableEq, Repr

/-- The external provider calls of the barcode chain, modelled as oracle
functions (network behaviour is outside the embedding); images are opaque
tokens. -/
structure BarcodeEnv where
  off_search : String → Option NutritionalData
  ean_search : String → Option NutritionalData
  barcode_lookup_search : String → Option NutritionalData
  upc_search : String → Option NutritionalData
  barcode_database_search : String → Option NutritionalData
  label_analyze : Nat → Option NutritionalData

/-- Embedding of `search_open_food_facts_by_barcode(barcode, image_bytes)`:
the five providers are awaited strictly in order, the first non-`None`
result is returned; only after all five fail, and only when an image was
supplied, the Groq label-reading fallback runs. -/
def search_open_food_facts_by_barcode (env : BarcodeEnv) (barcode : String)
    (image_bytes : Option Nat) : Option NutritionalData :=
  match env.off_search barcode with
  | some r => some r
  | none =>
  match env.ean_search barcode with
  | some r => some r
  | none =>
  match env.barcode_lookup_search barcode with
  | some r => some r
  | none =>
  match env.upc_search barcode with
  | some r => some r
  | none =>
  match env.barcode_database_search barcode with
  | some r => some r
  | none =>
  match image_bytes with
  | some img => env.label_analyze img
  | none => none

/-- Instrumented variant of `search_open_food_facts_by_barcode` that also
returns, in order, which providers were actually invoked (an `await` in
the source is reached exactly when all earlier ones returned `None`). -/
def search_open_food_facts_by_barcode_traced (env : BarcodeEnv) (barcode : String)
    (image_bytes : Option Nat) : Option NutritionalData × List BarcodeProvider :=
  match env.off_search barcode with
  | some r => (some r, [.off])
  | none =>
  match env.ean_search barcode with
  | some r => (some r, [.off, .ean])
  | none =>
  match env.barcode_lookup_search barcode with
  | some r => (some r, [.off, .ean, .barcode_lookup])
  | none =>
  match env.upc_search barcode with
  | some r => (some r, [.off, .ean, .barcode_lookup, .upc])
  | none =>
  match env.barcode_database_search barcode with
  | some r => (some r, [.off, .ean, .barcode_lookup, .upc, .barcode_database])
  | none =>
  match image_bytes with
  | some img =>
      (env.label_analyze img,
       [.off, .ean, .barcode_lookup, .upc, .barcode_database, .groq_label])
  | none =>
      (none, [.off, .ean, .barcode_lookup, .upc, .barcode_database])

/-- The fixed priority order of the barcode chain. -/
def BARCODE_PRIORITY : List BarcodeProvider :=
  [.off, .ean, .barcode_lookup, .upc, .barcode_database, .groq_label]

/-- The k-th provider of the chain (label fallback excluded). -/
def nthProvider (k : Fin 5) : BarcodeProvider :=
  match k with
  | ⟨0, _⟩ => .off
  | ⟨1, _⟩ => .ean
  | ⟨2, _⟩ => .barcode_lookup
  | ⟨3, _⟩ => .upc
  | ⟨4, _⟩ => .barcode_database

/-- The oracle result of the k-th provider of the chain. -/
def nthProviderCall (env : BarcodeEnv) (barcode : String) (k : Fin 5) :
    Option NutritionalData :=
  match k with
  | ⟨0, _⟩ => env.off_search barcode
  | ⟨1, _⟩ => env.ean_search barcode
  | ⟨2, _⟩ => env.barcode_lookup_search barcode
  | ⟨3, _⟩ => env.upc_search barcode
  | ⟨4, _⟩ => env.barcode_database_search barcode

/-! ## Enrichment orchestrator (`api_services.py`, lines 1234-1345) -/

/-- The fields `process_gemini_and_enrich` reads from one food entry of
the interpreter response (`none` models a missing/falsy value). -/
structure GeminiFood where
  name : Option String
  estimated_grams : Option ℚ
  calories_per_100g : Option ℚ
  protein_per_100g : Option ℚ
  carbs_per_100g : Option ℚ
  fat_per_100g : Option ℚ
deriving DecidableEq, Repr

/-- Embedding of the quantity fix-up: missing quantity defaults to 100 and
a non-positive quantity is replaced by 100. -/
def fix_grams (g : Option ℚ) : ℚ :=
  if g.getD 100 ≤ 0 then 100 else g.getD 100

/-- Embedding of "Opción 3" of `process_gemini_and_enrich`: the fixed
generic default record (10 g protein / 20 g carbs / 5 g fat per 100 g,
Atwater-derived calories, source `"default"`). -/
def default_nutrition (name : String) : NutritionalData :=
  { food_name := name
    calories_per_100g := atwater_kcal 10 20 5
    protein_per_100g := 10
    carbs_per_100g := 20
    fat_per_100g := 5
    source := "default" }

/-- Embedding of "Opción 1" of `process_gemini_and_enrich`: when all four
per-100g fields are present in the entry, they are accepted after a final
Atwater reconciliation of the calories. -/
def groq_normalized_nutrition (name : String) (food : GeminiFood) :
    Option NutritionalData :=
  match food.calories_per_100g, food.protein_per_100g,
        food.carbs_per_100g, food.fat_per_100g with
  | some cal, some prot, some carbs, some fat => some
      { food_name := name
        calories_per_100g := validate_and_fix_calories cal prot carbs fat
        protein_per_100g := prot
        carbs_per_100g := carbs
        fat_per_100g := fat
        source := "groq_atwater" }
  | _, _, _, _ => none

/-- Embedding of `get_nutrition_by_food_name`: Open Food Facts name search
first, USDA FoodData second, `None` if both fail; each provider modelled
as an oracle. -/
def get_nutrition_by_food_name (off_by_name usda : String → Option NutritionalData)
    (food_name : String) : Option NutritionalData :=
  match off_by_name food_name with
  | some r => some r
  | none => usda food_name

/-- The three-way resolution of one food entry's nutrition record inside
`process_gemini_and_enrich`: entry macros when complete, otherwise the
name-keyed provider lookup with Atwater reconciliation of its calories,
otherwise the fixed default. -/
def resolve_nutrition (lookup : String → Option NutritionalData)
    (name : String) (food : GeminiFood) : NutritionalData :=
  match groq_normalized_nutrition name food with
  | some n => n
  | none =>
    match lookup name with
    | some api =>
        { api with
          calories_per_100g :=
            validate_and_fix_calories api.calories_per_100g
              api.protein_per_100g api.carbs_per_100g api.fat_per_100g }
    | none => default_nutrition name

/-- Embedding of one iteration of the loop of `process_gemini_and_enrich`:
a food entry without a name is skipped; a named entry always contributes
exactly one `(name, grams, record)` tuple. -/
def enrich_food (lookup : String → Option NutritionalData) (food : GeminiFood) :
    Option (String × ℚ × NutritionalData) :=
  match food.name with
  | none => none
  | some name => some (name, fix_grams food.estimated_grams, resolve_nutrition lookup name food)

/-- Embedding of `process_gemini_and_enrich` over the food list of the
interpreter response, with the two name-keyed providers as oracles. -/
def process_gemini_and_enrich (off_by_name usda : String → Option NutritionalData)
    (foods : List GeminiFood) : List (String × ℚ × NutritionalData) :=
  foods.filterMap (enrich_food (get_nutrition_by_food_name off_by_name usda))

/-! ## Logical-day window theorems (claims C6, C7, C8, C10) -/

/-- Shared bounds: the logical-day start is at most the reference instant,
lies less than one day before it, and falls on the configured start hour. -/
theorem logical_day_start_bounds (t : ℤ) :
    get_logical_day_start t ≤ t ∧ t < get_logical_day_start t + microsPerDay ∧
    get_logical_day_start t % microsPerDay = logicalDayStartMicros := by
  simp only [get_logical_day_start, microsPerDay, logicalDayStartMicros,
    LOGICAL_DAY_START_HOUR]
  split <;> omega

/-- Claim C6 as stated is false: at 2024-01-15T02:59:59.500000 (epoch day
19737, start hour 3) the instant lies inside its logical day but strictly
after `get_logical_day_end` of itself, because the end instant truncates
the final second. -/
theorem C6_counterexample :
    get_logical_day_start (19737 * microsPerDay + 10799 * microsPerSecond + 500000)
        ≤ 19737 * microsPerDay + 10799 * microsPerSecond + 500000 ∧
    ¬ (19737 * microsPerDay + 10799 * microsPerSecond + 500000
        ≤ get_logical_day_end (19737 * microsPerDay + 10799 * microsPerSecond + 500000)) := by
  exact ⟨by decide, by decide⟩

/-- Claim C6, amended: for every instant, `dayStart(t) ≤ t` and
`t < dayEnd(t) + 1s`; the upper bound `t ≤ dayEnd(t)` of the claim holds
for every instant of whole-second precision (zero microseconds), but not
for arbitrary sub-second instants. -/
theorem C6_amended_window_bounds (t : ℤ) :
    get_logical_day_start t ≤ t ∧ t < get_logical_day_end t + microsPerSecond ∧
    (t % microsPerSecond = 0 → t ≤ get_logical_day_end t) := by
  simp only [get_logical_day_end, get_logical_day_start, microsPerDay, microsPerSecond,
    logicalDayStartMicros, LOGICAL_DAY_START_HOUR]
  split <;> omega

/-- Witness for C6 at the instant 0 (a whole second). -/
theorem C6_witness :
    get_logical_day_start 0 ≤ (0 : ℤ) ∧ (0 : ℤ) ≤ get_logical_day_end 0 :=
  ⟨(C6_amended_window_bounds 0).1, (C6_amended_window_bounds 0).2.2 (by decide)⟩

/-- Claim C7 as stated is false: at the reference instant
2024-01-15T03:00:00 the half-open window `[dayStart, dayEnd)` is
86399000000 microseconds wide (23:59:59), not exactly 24 hours. -/
theorem C7_counterexample :
    get_logical_day_end (19737 * microsPerDay + logicalDayStartMicros)
        - get_logical_day_start (19737 * microsPerDay + logicalDayStartMicros)
      ≠ microsPerDay ∧
    get_logical_day_end (19737 * microsPerDay + logicalDayStartMicros)
        - get_logical_day_start (19737 * microsPerDay + logicalDayStartMicros)
      = microsPerDay - microsPerSecond := by
  exact ⟨by decide, by decide⟩

/-- Claim C7, amended: the window used by `get_today_totals` is the
half-open interval `[dayStart(t), dayEnd(t))`, of width exactly 24 hours
minus one second, and `dayStart(t)` is the most recent instant at the
configured start hour that is ≤ the reference instant. -/
theorem C7_amended_window (t : ℤ) :
    get_logical_day_end t - get_logical_day_start t = microsPerDay - microsPerSecond ∧
    get_logical_day_start t ≤ t ∧
    get_logical_day_start t % microsPerDay = logicalDayStartMicros ∧
    (∀ s : ℤ, s % microsPerDay = logicalDayStartMicros → s ≤ t →
        s ≤ get_logical_day_start t) ∧
    (∀ ts : ℤ, in_logical_day_window ts t = true ↔
        get_logical_day_start t ≤ ts ∧ ts < get_logical_day_end t) := by
  refine ⟨?_, (logical_day_start_bounds t).1, (logical_day_start_bounds t).2.2, ?_, ?_⟩
  · simp only [get_logical_day_end, get_logical_day_start, microsPerDay, microsPerSecond,
      logicalDayStartMicros, LOGICAL_DAY_START_HOUR]
    split <;> omega
  · intro s hs hle
    simp only [get_logical_day_start, microsPerDay, logicalDayStartMicros,
      LOGICAL_DAY_START_HOUR] at *
    split <;> omega
  · intro ts
    simp [in_logical_day_window]

/-- Witness for C7: 03:00:00 of epoch day 0 is itself on the start hour,
so it bounds the day start of a same-day later instant from below. -/
theorem C7_witness :
    logicalDayStartMicros ≤ get_logical_day_start (19737 * microsPerDay + logicalDayStartMicros) :=
  (C7_amended_window (19737 * microsPerDay + logicalDayStartMicros)).2.2.2.1
    logicalDayStartMicros (by decide) (by decide)

/-- Claim C8: with start hour 3, `dayStart` of 2024-01-15T02:59:59 (epoch
day 19737) is 2024-01-14T03:00:00 and `dayStart` of 2024-01-15T03:00:00 is
that same instant; `dayEnd` always equals `dayStart + 23:59:59`; and the
logical windows of two consecutive calendar days are contiguous
(end + 1s = next start) and non-overlapping (end < next start) at second
granularity. -/
theorem C8_logical_day_partition :
    get_logical_day_start (19737 * microsPerDay + 10799 * microsPerSecond)
      = 19736 * microsPerDay + logicalDayStartMicros ∧
    get_logical_day_start (19737 * microsPerDay + logicalDayStartMicros)
      = 19737 * microsPerDay + logicalDayStartMicros ∧
    (∀ t : ℤ, get_logical_day_end t = get_logical_day_start t + 86399 * microsPerSecond) ∧
    (∀ d : ℤ,
      get_logical_day_end (d * microsPerDay + logicalDayStartMicros) + microsPerSecond
        = get_logical_day_start ((d + 1) * microsPerDay + logicalDayStartMicros) ∧
      get_logical_day_end (d * microsPerDay + logicalDayStartMicros)
        < get_logical_day_start ((d + 1) * microsPerDay + logicalDayStartMicros)) := by
  refine ⟨by decide, by decide, ?_, ?_⟩
  · intro t
    simp only [get_logical_day_end, get_logical_day_start, microsPerDay, microsPerSecond,
      logicalDayStartMicros, LOGICAL_DAY_START_HOUR]
    split <;> omega
  · intro d
    simp only [get_logical_day_end, get_logical_day_start, microsPerDay, microsPerSecond,
      logicalDayStartMicros, LOGICAL_DAY_START_HOUR]
    constructor <;> (split <;> split <;> omega)

/-- Claim C10: the logical-day start function is idempotent — the start of
a logical day is a fixed point of `get_logical_day_start`. -/
theorem C10_day_start_idempotent (t : ℤ) :
    get_logical_day_start (get_logical_day_start t) = get_logical_day_start t := by
  simp only [get_logical_day_start, microsPerDay, logicalDayStartMicros,
    LOGICAL_DAY_START_HOUR]
  split <;> split <;> omega

/-! ## Atwater reconciliation theorems (claims C1, C2) -/

/-- The computable rational floor agrees with the floor of the ordered
field structure. -/
theorem rat_floor_eq_int_floor (q : ℚ) : q.floor = ⌊q⌋ := by
  rw [Rat.floor_def', Rat.floor_def]

/-- Rounding to one decimal preserves nonnegativity. -/
theorem round1_nonneg {x : ℚ} (hx : 0 ≤ x) : 0 ≤ round1 x := by
  unfold round1
  rw [rat_floor_eq_int_floor]
  have h : (0 : ℤ) ≤ ⌊x * 10 + 1/2⌋ := Int.le_floor.2 (by positivity)
  have h' : (0 : ℚ) ≤ ((⌊x * 10 + 1/2⌋ : ℤ) : ℚ) := by exact_mod_cast h
  linarith

/-- Reconciling the Atwater value against itself changes nothing. -/
theorem validate_atwater_fixed_point (p c f : ℚ) :
    validate_and_fix_calories (atwater_kcal p c f) p c f = atwater_kcal p c f := by
  unfold validate_and_fix_calories
  split
  · rfl
  · split <;> rfl

/-- Claim C2: reconciliation returns the reported value when Atwater is
zero; otherwise it returns the Atwater value exactly when the relative
deviation exceeds 20% and the reported value otherwise; for p=10, c=20,
f=5 (Atwater 165), a reported 196.4 is kept and a reported 206.3 is
replaced by 165.0. -/
theorem C2_reconciliation :
    (∀ r p c f : ℚ,
      (atwater_kcal p c f = 0 → validate_and_fix_calories r p c f = r) ∧
      (atwater_kcal p c f ≠ 0 →
        (|r - atwater_kcal p c f| / atwater_kcal p c f > 1/5 →
          validate_and_fix_calories r p c f = atwater_kcal p c f) ∧
        (¬(|r - atwater_kcal p c f| / atwater_kcal p c f > 1/5) →
          validate_and_fix_calories r p c f = r))) ∧
    atwater_kcal 10 20 5 = 165 ∧
    validate_and_fix_calories (982/5) 10 20 5 = 982/5 ∧
    validate_and_fix_calories (2063/10) 10 20 5 = 165 := by
  refine ⟨?_, by with_unfolding_all decide, by with_unfolding_all decide,
    by with_unfolding_all decide⟩
  intro r p c f
  unfold validate_and_fix_calories
  constructor
  · intro h
    rw [if_pos h]
  · intro h
    rw [if_neg h]
    constructor
    · intro hd
      rw [if_pos hd]
    · intro hd
      rw [if_neg hd]

/-- Witness for C2 on the zero-macro branch. -/
theorem C2_witness :
    atwater_kcal 0 0 0 = 0 ∧ validate_and_fix_calories 7 0 0 0 = 7 :=
  ⟨by with_unfolding_all decide,
   (C2_reconciliation.1 7 0 0 0).1 (by with_unfolding_all decide)⟩

/-- A concrete interpreter food entry whose reported calories (196.4) are
within 20% of its Atwater value (165) and are therefore kept. -/
def c1_food : GeminiFood :=
  { name := some "item"
    estimated_grams := some 100
    calories_per_100g := some (982/5)
    protein_per_100g := some 10
    carbs_per_100g := some 20
    fat_per_100g := some 5 }

/-- The record enrichment produces for `c1_food`. -/
def c1_record : NutritionalData :=
  { food_name := "item"
    calories_per_100g := 982/5
    protein_per_100g := 10
    carbs_per_100g := 20
    fat_per_100g := 5
    source := "groq_atwater" }

/-- Claim C1 as stated is false: enrichment of `c1_food` produces a
post-reconciliation record (provenance `"groq_atwater"`) whose calories
field, 196.4, differs from `round(protein*4 + carbs*4 + fat*9, 1) = 165`
computed from the record's own macros, because reconciliation keeps any
reported value within 20% of the Atwater value. -/
theorem C1_counterexample :
    process_gemini_and_enrich (fun _ => none) (fun _ => none) [c1_food]
      = [("item", 100, c1_record)] ∧
    c1_record.source = "groq_atwater" ∧
    c1_record.calories_per_100g
      ≠ round1 (c1_record.protein_per_100g * 4 + c1_record.carbs_per_100g * 4
          + c1_record.fat_per_100g * 9) := by
  refine ⟨by with_unfolding_all decide, rfl, by with_unfolding_all decide⟩

/-- Every record produced by enrichment carries calories equal to the
reconciliation of some reported value against the record's own macros. -/
theorem resolve_nutrition_calories (lookup : String → Option NutritionalData)
    (name : String) (fd : GeminiFood) :
    ∃ reported : ℚ,
      (resolve_nutrition lookup name fd).calories_per_100g
        = validate_and_fix_calories reported
            (resolve_nutrition lookup name fd).protein_per_100g
            (resolve_nutrition lookup name fd).carbs_per_100g
            (resolve_nutrition lookup name fd).fat_per_100g := by
  rcases hcal : fd.calories_per_100g with _ | cal <;>
    rcases hprot : fd.protein_per_100g with _ | prot <;>
      rcases hcarb : fd.carbs_per_100g with _ | carb <;>
        rcases hfat : fd.fat_per_100g with _ | fat <;>
          rcases hl : lookup name with _ | api <;>
            simp only [resolve_nutrition, groq_normalized_nutrition,
              hcal, hprot, hcarb, hfat, hl] <;>
            first
              | exact ⟨cal, rfl⟩
              | exact ⟨api.calories_per_100g, rfl⟩
              | exact ⟨atwater_kcal 10 20 5, (validate_atwater_fixed_point 10 20 5).symm⟩

/-- Claim C1, amended: after reconciliation, a record's calories need not
equal the Atwater value of its macros — they deviate from it by at most
20% whenever the macros are nonnegative with non-zero Atwater value (and
equal the reported value when Atwater is zero); every enriched record's
calories are the reconciliation of some reported value against the
record's own macros. -/
theorem C1_amended_reconciled_calories :
    (∀ r p c f : ℚ, 0 ≤ p → 0 ≤ c → 0 ≤ f → atwater_kcal p c f ≠ 0 →
      |validate_and_fix_calories r p c f - atwater_kcal p c f|
        ≤ atwater_kcal p c f * (1/5)) ∧
    (∀ r p c f : ℚ, atwater_kcal p c f = 0 →
      validate_and_fix_calories r p c f = r) ∧
    (∀ off_by_name usda foods entry,
      entry ∈ process_gemini_and_enrich off_by_name usda foods →
      ∃ reported : ℚ,
        entry.2.2.calories_per_100g
          = validate_and_fix_calories reported entry.2.2.protein_per_100g
              entry.2.2.carbs_per_100g entry.2.2.fat_per_100g) := by
  refine ⟨?_, ?_, ?_⟩
  · intro r p c f hp hc hf ha
    have hnn : 0 ≤ atwater_kcal p c f := round1_nonneg (by positivity)
    have hpos : 0 < atwater_kcal p c f := lt_of_le_of_ne hnn (Ne.symm ha)
    unfold validate_and_fix_calories
    rw [if_neg ha]
    split
    · rw [sub_self, abs_zero]
      positivity
    · rename_i hd
      push_neg at hd
      have h2 := (div_le_iff₀ hpos).1 hd
      linarith
  · intro r p c f h
    unfold validate_and_fix_calories
    rw [if_pos h]
  · intro off_by_name usda foods entry hmem
    unfold process_gemini_and_enrich at hmem
    rw [List.mem_filterMap] at hmem
    obtain ⟨fd, _, hfd⟩ := hmem
    rcases hname : fd.name with _ | name
    · simp [enrich_food, hname] at hfd
    · simp only [enrich_food, hname, Option.some.injEq] at hfd
      obtain rfl := hfd.symm
      exact resolve_nutrition_calories (get_nutrition_by_food_name off_by_name usda) name fd

/-- Witness for C1 on macros 10/20/5 with a reported value of 150. -/
theorem C1_witness :
    |validate_and_fix_calories 150 10 20 5 - atwater_kcal 10 20 5|
      ≤ atwater_kcal 10 20 5 * (1/5) :=
  C1_amended_reconciled_calories.1 150 10 20 5 (by with_unfolding_all decide)
    (by with_unfolding_all decide) (by with_unfolding_all decide)
    (by with_unfolding_all decide)

/-! ## Enrichment guarantee theorems (claim C3) -/

/-- Claim C3: enrichment yields exactly one output tuple per named entry
of the interpreter response, and a named entry with incomplete per-100g
macro fields whose name no provider resolves receives the fixed default
record — 10 g protein, 20 g carbs, 5 g fat per 100 g, with Atwater-derived
calories 165.0 — never an empty result. -/
theorem C3_enrichment_guarantee :
    (∀ off_by_name usda : String → Option NutritionalData, ∀ foods : List GeminiFood,
      (process_gemini_and_enrich off_by_name usda foods).length
        = (foods.filter fun fd => fd.name.isSome).length) ∧
    (∀ off_by_name usda : String → Option NutritionalData, ∀ fd : GeminiFood, ∀ name,
      fd.name = some name →
      (fd.calories_per_100g = none ∨ fd.protein_per_100g = none ∨
        fd.carbs_per_100g = none ∨ fd.fat_per_100g = none) →
      off_by_name name = none → usda name = none →
      enrich_food (get_nutrition_by_food_name off_by_name usda) fd
        = some (name, fix_grams fd.estimated_grams, default_nutrition name)) ∧
    (∀ name, (default_nutrition name).protein_per_100g = 10 ∧
      (default_nutrition name).carbs_per_100g = 20 ∧
      (default_nutrition name).fat_per_100g = 5 ∧
      (default_nutrition name).calories_per_100g = atwater_kcal 10 20 5) ∧
    atwater_kcal 10 20 5 = 165 := by
  refine ⟨?_, ?_, fun name => ⟨rfl, rfl, rfl, rfl⟩, by with_unfolding_all decide⟩
  · intro off_by_name usda foods
    unfold process_gemini_and_enrich
    induction foods with
    | nil => rfl
    | cons fd rest ih =>
      rw [List.filterMap_cons, List.filter_cons]
      rcases hname : fd.name with _ | name
      · have he : enrich_food (get_nutrition_by_food_name off_by_name usda) fd = none := by
          simp only [enrich_food, hname]
        rw [he]
        simp [hname, ih]
      · have he : enrich_food (get_nutrition_by_food_name off_by_name usda) fd
            = some (name, fix_grams fd.estimated_grams,
                resolve_nutrition (get_nutrition_by_food_name off_by_name usda) name fd) := by
          simp only [enrich_food, hname]
        rw [he]
        simp [hname, ih]
  · intro off_by_name usda fd name hname hinc hoff husda
    have hg : groq_normalized_nutrition name fd = none := by
      unfold groq_normalized_nutrition
      rcases hcal : fd.calories_per_100g with _ | cal <;>
        rcases hprot : fd.protein_per_100g with _ | prot <;>
          rcases hcarb : fd.carbs_per_100g with _ | carb <;>
            rcases hfat : fd.fat_per_100g with _ | fat <;>
              simp_all
    have hl : get_nutrition_by_food_name off_by_name usda name = none := by
      unfold get_nutrition_by_food_name
      rw [hoff]
      exact husda
    have hres : resolve_nutrition (get_nutrition_by_food_name off_by_name usda) name fd
        = default_nutrition name := by
      unfold resolve_nutrition
      rw [hg, hl]
    simp only [enrich_food, hname, hres]

/-- The interpreter entry of the C3 witness: named, with incomplete
per-100g macro fields. -/
def c3_food : GeminiFood :=
  { name := some "rareza"
    estimated_grams := none
    calories_per_100g := none
    protein_per_100g := some 10
    carbs_per_100g := some 20
    fat_per_100g := some 5 }

/-- Witness for C3 with both providers failing on the name. -/
theorem C3_witness :
    enrich_food (get_nutrition_by_food_name (fun _ => none) (fun _ => none)) c3_food
      = some ("rareza", fix_grams c3_food.estimated_grams, default_nutrition "rareza") :=
  C3_enrichment_guarantee.2.1 (fun _ => none) (fun _ => none) c3_food "rareza" rfl
    (Or.inl rfl) rfl rfl

/-! ## Provider all-zero acceptance theorems (claim C4) -/

/-- Claim C4 as stated is false: the EAN Search provider of the barcode
chain accepts a response carrying only a barcode and a product name, and
returns a record whose four nutrient values are all zero, treating it as
valid data rather than absence. -/
theorem C4_counterexample :
    search_ean_search_parse { barcode_found := true, name := some "Producto" }
      = some
        { food_name := "Producto"
          calories_per_100g := 0
          protein_per_100g := 0
          carbs_per_100g := 0
          fat_per_100g := 0
          source := "ean_search" } := by
  with_unfolding_all decide

/-- Claim C4, amended: the all-zero rejection holds for the primary Open
Food Facts barcode provider — it accepts a parse only if some nutrient
among calories, protein, carbs, fat is non-zero — but not chain-wide:
every record the EAN Search provider accepts has all four nutrient values
zero, and the name-keyed Open Food Facts search accepts the first product
unconditionally, including an all-zero parse. -/
theorem C4_amended_all_zero_acceptance :
    (∀ p : OffBarcodeProduct, ∀ rec : NutritionalData,
      search_off_barcode_parse (some p) = some rec →
      ¬(rec.calories_per_100g = 0 ∧ rec.protein_per_100g = 0 ∧
        rec.carbs_per_100g = 0 ∧ rec.fat_per_100g = 0)) ∧
    (∀ resp : EanSearchResponse, ∀ rec : NutritionalData,
      search_ean_search_parse resp = some rec →
      rec.calories_per_100g = 0 ∧ rec.protein_per_100g = 0 ∧
        rec.carbs_per_100g = 0 ∧ rec.fat_per_100g = 0) ∧
    (∀ qname : String, ∀ p : OffNameProduct,
      p.calories = 0 → p.protein = 0 → p.carbs = 0 → p.fat = 0 →
      ∃ rec : NutritionalData,
        search_off_by_name_parse qname (some p) = some rec ∧
        rec.calories_per_100g = 0 ∧ rec.protein_per_100g = 0 ∧
        rec.carbs_per_100g = 0 ∧ rec.fat_per_100g = 0) := by
  refine ⟨?_, ?_, ?_⟩
  · intro p rec h
    simp only [search_off_barcode_parse] at h
    split at h
    · exact absurd h (by simp)
    · rename_i hcond
      injection h with h
      subst h
      rintro ⟨h1, h2, h3, h4⟩
      dsimp only at h1 h2 h3 h4
      exact hcond ⟨h1, by simp [h2, h3, h4]⟩
  · intro resp rec h
    unfold search_ean_search_parse at h
    split at h
    · rcases hn : resp.name with _ | pname <;> rw [hn] at h
      · exact absurd h (by simp)
      · injection h with h
        subst h
        exact ⟨rfl, rfl, rfl, rfl⟩
    · exact absurd h (by simp)
  · intro qname p h1 h2 h3 h4
    refine ⟨_, rfl, h1, h2, h3, h4⟩

/-- The EAN Search response of the C4 witness. -/
def c4_response : EanSearchResponse := { barcode_found := true, name := some "P" }

/-- The record the EAN Search parser accepts for `c4_response`. -/
def c4_record : NutritionalData :=
  { food_name := "P"
    calories_per_100g := 0
    protein_per_100g := 0
    carbs_per_100g := 0
    fat_per_100g := 0
    source := "ean_search" }

/-- Witness for C4 on the EAN Search branch. -/
theorem C4_witness :
    c4_record.calories_per_100g = 0 ∧ c4_record.protein_per_100g = 0 ∧
    c4_record.carbs_per_100g = 0 ∧ c4_record.fat_per_100g = 0 :=
  C4_amended_all_zero_acceptance.2.1 c4_response c4_record rfl

/-! ## Barcode fallback chain theorems (claim C5) -/

/-- Claim C5: the barcode chain tries its five providers strictly in the
fixed priority order (the invocation trace is always an initial segment of
that order); the first provider returning a result short-circuits the
chain with exactly that result and no later provider or label fallback
invoked; the label-reading fallback is invoked only when all five
providers failed and an image was supplied; and with no image the chain
returns nothing after exhausting all five providers. -/
theorem C5_barcode_chain_short_circuit (env : BarcodeEnv) (b : String) (img : Option Nat) :
    (search_open_food_facts_by_barcode_traced env b img).1
        = search_open_food_facts_by_barcode env b img ∧
    (search_open_food_facts_by_barcode_traced env b img).2
        = BARCODE_PRIORITY.take (search_open_food_facts_by_barcode_traced env b img).2.length ∧
    (∀ k : Fin 5, ∀ r : NutritionalData,
      (∀ j : Fin 5, j < k → nthProviderCall env b j = none) →
      nthProviderCall env b k = some r →
      search_open_food_facts_by_barcode_traced env b img
        = (some r, BARCODE_PRIORITY.take (k.1 + 1))) ∧
    (BarcodeProvider.groq_label ∈ (search_open_food_facts_by_barcode_traced env b img).2 →
      env.off_search b = none ∧ env.ean_search b = none ∧
      env.barcode_lookup_search b = none ∧ env.upc_search b = none ∧
      env.barcode_database_search b = none ∧ img ≠ none) ∧
    (img = none → env.off_search b = none → env.ean_search b = none →
      env.barcode_lookup_search b = none → env.upc_search b = none →
      env.barcode_database_search b = none →
      search_open_food_facts_by_barcode env b img = none ∧
      (search_open_food_facts_by_barcode_traced env b img).2
        = [BarcodeProvider.off, BarcodeProvider.ean, BarcodeProvider.barcode_lookup,
           BarcodeProvider.upc, BarcodeProvider.barcode_database]) := by
  refine ⟨?_, ?_, ?_, ?_, ?_⟩
  · unfold search_open_food_facts_by_barcode search_open_food_facts_by_barcode_traced
    rcases h0 : env.off_search b with _ | r0 <;>
      rcases h1 : env.ean_search b with _ | r1 <;>
        rcases h2 : env.barcode_lookup_search b with _ | r2 <;>
          rcases h3 : env.upc_search b with _ | r3 <;>
            rcases h4 : env.barcode_database_search b with _ | r4 <;>
              rcases himg : img with _ | i <;> rfl
  · unfold search_open_food_facts_by_barcode_traced
    rcases h0 : env.off_search b with _ | r0 <;>
      rcases h1 : env.ean_search b with _ | r1 <;>
        rcases h2 : env.barcode_lookup_search b with _ | r2 <;>
          rcases h3 : env.upc_search b with _ | r3 <;>
            rcases h4 : env.barcode_database_search b with _ | r4 <;>
              rcases himg : img with _ | i <;> rfl
  · intro k r hprev hk
    fin_cases k
    · simp only [nthProviderCall] at hk
      simp [search_open_food_facts_by_barcode_traced, hk, BARCODE_PRIORITY]
    · have e0 := hprev 0 (by decide)
      simp only [nthProviderCall] at e0 hk
      simp [search_open_food_facts_by_barcode_traced, e0, hk, BARCODE_PRIORITY]
    · have e0 := hprev 0 (by decide)
      have e1 := hprev 1 (by decide)
      simp only [nthProviderCall] at e0 e1 hk
      simp [search_open_food_facts_by_barcode_traced, e0, e1, hk, BARCODE_PRIORITY]
    · have e0 := hprev 0 (by decide)
      have e1 := hprev 1 (by decide)
      have e2 := hprev 2 (by decide)
      simp only [nthProviderCall] at e0 e1 e2 hk
      simp [search_open_food_facts_by_barcode_traced, e0, e1, e2, hk, BARCODE_PRIORITY]
    · have e0 := hprev 0 (by decide)
      have e1 := hprev 1 (by decide)
      have e2 := hprev 2 (by decide)
      have e3 := hprev 3 (by decide)
      simp only [nthProviderCall] at e0 e1 e2 e3 hk
      simp [search_open_food_facts_by_barcode_traced, e0, e1, e2, e3, hk, BARCODE_PRIORITY]
  · intro hmem
    rcases h0 : env.off_search b with _ | r0 <;>
      rcases h1 : env.ean_search b with _ | r1 <;>
        rcases h2 : env.barcode_lookup_search b with _ | r2 <;>
          rcases h3 : env.upc_search b with _ | r3 <;>
            rcases h4 : env.barcode_database_search b with _ | r4 <;>
              rcases himg : img with _ | i <;>
                simp_all [search_open_food_facts_by_barcode_traced]
  · intro himg h0 h1 h2 h3 h4
    subst himg
    unfold search_open_food_facts_by_barcode search_open_food_facts_by_barcode_traced
    rw [h0, h1, h2, h3, h4]
    exact ⟨rfl, rfl⟩

/-- The record returned by the first provider in the C5 witness. -/
def c5_record : NutritionalData :=
  { food_name := "Primer"
    calories_per_100g := 100
    protein_per_100g := 1
    carbs_per_100g := 2
    fat_per_100g := 3
    source := "open_food_facts" }

/-- A chain environment where only the first provider succeeds. -/
def c5_env : BarcodeEnv :=
  { off_search := fun _ => some c5_record
    ean_search := fun _ => none
    barcode_lookup_search := fun _ => none
    upc_search := fun _ => none
    barcode_database_search := fun _ => none
    label_analyze := fun _ => none }

/-- Witness for C5: with the first provider succeeding, the chain stops
after invoking only that provider. -/
theorem C5_witness :
    search_open_food_facts_by_barcode_traced c5_env "7501234567890" none
      = (some c5_record, BARCODE_PRIORITY.take (0 + 1)) :=
  (C5_barcode_chain_short_circuit c5_env "7501234567890" none).2.2.1 0 c5_record
    (fun j hj => absurd hj (Nat.not_lt_zero j.val)) rfl

/-! ## Barcode detector theorems (claim C9) -/

/-- Every character of a digit run is a digit. -/
theorem digitRun_all_isDigit (l : List Char) : ∀ ch ∈ digitRun l, ch.isDigit = true := by
  induction l with
  | nil =>
    intro ch h
    simp [digitRun] at h
  | cons c rest ih =>
    intro ch h
    rw [digitRun] at h
    split at h
    · rcases List.mem_cons.1 h with rfl | h2
      · assumption
      · exact ih ch h2
    · simp at h

/-- A successful digit-run extraction yields an all-digit list of length
8 to 14. -/
theorem regex_digit_search_shape (l out : List Char)
    (h : regex_digit_search l = some out) :
    (∀ ch ∈ out, ch.isDigit = true) ∧ 8 ≤ out.length ∧ out.length ≤ 14 := by
  induction l with
  | nil => simp [regex_digit_search] at h
  | cons c rest ih =>
    rw [regex_digit_search] at h
    split at h
    · rename_i hlen
      injection h with h
      subst h
      refine ⟨fun ch hch => digitRun_all_isDigit _ ch (List.take_subset _ _ hch), ?_, ?_⟩
      · rw [List.length_take]
        omega
      · rw [List.length_take]
        omega
    · exact ih h

/-- The digit-run extraction is leftmost-greedy: it returns, for the
first position where a run of at least 8 consecutive digits begins, that
run truncated to its first 14 digits. -/
theorem regex_digit_search_leftmost (l out : List Char)
    (h : regex_digit_search l = some out) :
    ∃ i, (∀ j, j < i → (digitRun (l.drop j)).length < 8) ∧
      8 ≤ (digitRun (l.drop i)).length ∧
      out = (digitRun (l.drop i)).take 14 := by
  induction l with
  | nil => simp [regex_digit_search] at h
  | cons c rest ih =>
    rw [regex_digit_search] at h
    split at h
    · rename_i hlen
      injection h with h
      exact ⟨0, fun j hj => absurd hj (Nat.not_lt_zero j), hlen, h.symm⟩
    · rename_i hlen
      obtain ⟨i, h1, h2, h3⟩ := ih h
      refine ⟨i + 1, ?_, ?_, ?_⟩
      · intro j hj
        cases j with
        | zero =>
          simp only [List.drop_zero]
          omega
        | succ j2 => simpa using h1 j2 (by omega)
      · simpa using h2
      · simpa using h3

/-- A validated payload is an all-digit string of length 8 to 14. -/
theorem validate_barcode_payload_shape (b out : String)
    (h : validate_barcode_payload b = some out) :
    out.toList.all Char.isDigit = true ∧ 8 ≤ out.length ∧ out.length ≤ 14 := by
  unfold validate_barcode_payload at h
  split at h
  · rename_i hcond
    injection h with h
    subst h
    exact ⟨hcond.1, hcond.2.1, hcond.2.2⟩
  · split at h
    · rcases hr : regex_digit_search b.toList with _ | l <;> rw [hr] at h
      · exact absurd h (by simp)
      · obtain ⟨hdig, h8, h14⟩ := regex_digit_search_shape _ _ hr
        rw [Option.map_some'] at h
        injection h with h
        subst h
        refine ⟨?_, h8, h14⟩
        rw [show (String.mk l).toList = l from rfl, List.all_eq_true]
        exact fun ch hch => hdig ch hch
    · exact absurd h (by simp)

/-- Claim C9 as stated is false: on the decoded payload
"a12345678b1234567890123" the detector returns the leftmost 8-digit run
"12345678", not the longest embedded 8-14 digit run "1234567890123"
(13 digits, present as a contiguous all-digit segment). -/
theorem C9_counterexample :
    validate_barcode_payload "a12345678b1234567890123" = some "12345678" ∧
    (∃ pre post : List Char,
      "a12345678b1234567890123".toList
        = pre ++ "1234567890123".toList ++ post ∧
      "1234567890123".toList.all Char.isDigit = true ∧
      8 ≤ "1234567890123".length ∧ "1234567890123".length ≤ 14) ∧
    ("12345678" : String).length < ("1234567890123" : String).length := by
  refine ⟨by decide, ⟨"a12345678b".toList, [], by decide, by decide, by decide, by decide⟩,
    by decide⟩

/-- Claim C9, amended: the detector returns either nothing or an all-digit
string of length 8-14; an all-digit payload of length 8-14 is returned
as-is; and a payload failing that test yields the leftmost run of at least
8 consecutive digits truncated to its first 14 digits — not the longest
embedded run. -/
theorem C9_amended_detector_output :
    (∀ attempts : List (List String), ∀ code : String,
      extract_barcode_from_image attempts = some code →
      code.toList.all Char.isDigit = true ∧ 8 ≤ code.length ∧ code.length ≤ 14) ∧
    (∀ b : String, b.toList.all Char.isDigit = true → 8 ≤ b.length → b.length ≤ 14 →
      validate_barcode_payload b = some b) ∧
    (∀ b code : String, validate_barcode_payload b = some code →
      code = b ∨
      ∃ i, (∀ j, j < i → (digitRun (b.toList.drop j)).length < 8) ∧
        8 ≤ (digitRun (b.toList.drop i)).length ∧
        code.toList = (digitRun (b.toList.drop i)).take 14) := by
  have htry : ∀ payloads : List String, ∀ out : String,
      try_pyzbar_decode payloads = some out →
      out.toList.all Char.isDigit = true ∧ 8 ≤ out.length ∧ out.length ≤ 14 := by
    intro payloads
    induction payloads with
    | nil =>
      intro out h
      simp [try_pyzbar_decode] at h
    | cons b rest ih =>
      intro out h
      rw [try_pyzbar_decode] at h
      rcases hv : validate_barcode_payload b with _ | code <;> rw [hv] at h
      · exact ih out h
      · injection h with h
        subst h
        exact validate_barcode_payload_shape b code hv
  refine ⟨?_, ?_, ?_⟩
  · intro attempts
    induction attempts with
    | nil =>
      intro code h
      simp [extract_barcode_from_image] at h
    | cons attempt rest ih =>
      intro code h
      rw [extract_barcode_from_image] at h
      rcases ht : try_pyzbar_decode attempt with _ | code2 <;> rw [ht] at h
      · exact ih code h
      · injection h with h
        subst h
        exact htry attempt code2 ht
  · intro b h1 h2 h3
    unfold validate_barcode_payload
    rw [if_pos ⟨h1, h2, h3⟩]
  · intro b code h
    unfold validate_barcode_payload at h
    split at h
    · injection h with h
      exact Or.inl h.symm
    · split at h
      · rcases hr : regex_digit_search b.toList with _ | l <;> rw [hr] at h
        · exact absurd h (by simp)
        · rw [Option.map_some'] at h
          injection h with h
          subst h
          obtain ⟨i, hi1, hi2, hi3⟩ := regex_digit_search_leftmost _ _ hr
          exact Or.inr ⟨i, hi1, hi2, by rw [show (String.mk l).toList = l from rfl]; exact hi3⟩
      · exact absurd h (by simp)

/-- Witness for C9 on a valid 13-digit payload. -/
theorem C9_witness :
    validate_barcode_payload "7501234567890" = some "7501234567890" :=
  C9_amended_detector_output.2.1 "7501234567890" (by decide) (by decide) (by decide)
